import Mathlib

/-!
Verification of the `sony_remote_ble` Go package: a BLE remote-control
client for Sony cameras.  The definitions below are a shallow embedding of
`src/sony_remote_ble/commands.go`, `src/sony_remote_ble/client.go` and the
UI model's device accumulation (`Model.addDevice`).  Go byte slices are
`List Nat` (each entry < 256), Go `error` values are a structural `GoError`
(either a fresh message or a `fmt.Errorf` wrap of an inner error), and the
external BLE stack's outcomes (connect, discovery, characteristic writes)
are passed in explicitly as environment parameters.
-/

namespace SonyRemoteBle

/-- Structural model of a Go `error` value: `errors.New msg` or
`fmt.Errorf "<prefix>: %w" inner`. -/
inductive GoError where
  | simple (msg : String)
  | wrapped (pre : String) (inner : GoError)
deriving DecidableEq, Repr

/-- Embeds `SonyCommand` from commands.go: a display name and a byte-code
payload (Go `[]byte` as `List Nat`). -/
structure SonyCommand where
  Name : String
  Code : List Nat
deriving DecidableEq, Repr

/-- Embeds the `SonyServiceUUID` string constant from commands.go. -/
def SonyServiceUUID : String := "8000ff00-ff00-ffff-ffff-ffffffffffff"

/-- Embeds the `CommandCharUUID` string constant from commands.go. -/
def CommandCharUUID : String := "0000ff01-0000-1000-8000-00805f9b34fb"

/-- Embeds the `Commands` map literal from commands.go.  Go map lookup
`Commands[k]` with the comma-ok form is `Commands k : Option SonyCommand`;
plain indexing (zero value on a missing key) is `goMapIndex` below. -/
def Commands (key : String) : Option SonyCommand :=
  match key with
  | "focus_down" => some ⟨"Focus Down", [0x01, 0x07]⟩
  | "focus_up" => some ⟨"Focus Up", [0x01, 0x06]⟩
  | "autofocus_down" => some ⟨"AutoFocus Down", [0x01, 0x15]⟩
  | "autofocus_up" => some ⟨"AutoFocus Up", [0x01, 0x14]⟩
  | "shutter_half_down" => some ⟨"Shutter Half Down", [0x01, 0x07]⟩
  | "shutter_half_up" => some ⟨"Shutter Half Up", [0x01, 0x06]⟩
  | "shutter_full_down" => some ⟨"Shutter Full Down", [0x01, 0x09]⟩
  | "shutter_full_up" => some ⟨"Shutter Full Up", [0x01, 0x08]⟩
  | "record_toggle" => some ⟨"Toggle Record", [0x01, 0x0e]⟩
  | "record_down" => some ⟨"Record Down", [0x01, 0x0f]⟩
  | "zoom_in_down" => some ⟨"Zoom In Down", [0x02, 0x6d, 0x20]⟩
  | "zoom_in_up" => some ⟨"Zoom In Up", [0x02, 0x6c, 0x00]⟩
  | "zoom_out_down" => some ⟨"Zoom Out Down", [0x02, 0x6b, 0x20]⟩
  | "zoom_out_up" => some ⟨"Zoom Out Up", [0x02, 0x6a, 0x00]⟩
  | "c1_down" => some ⟨"C1 Down", [0x01, 0x21]⟩
  | "c1_up" => some ⟨"C1 Up", [0x01, 0x20]⟩
  | _ => none

/-- Go map indexing without the comma-ok form: a missing key yields the
zero value of `SonyCommand` (empty name, nil byte slice). -/
def goMapIndex (key : String) : SonyCommand :=
  (Commands key).getD ⟨"", []⟩

/-- Embeds `TakePhotoSequence` from commands.go: the fixed four-entry
slice literal built by indexing `Commands`. -/
def TakePhotoSequence (_u : Unit) : List SonyCommand :=
  [goMapIndex "focus_down",
   goMapIndex "shutter_full_down",
   goMapIndex "shutter_full_up",
   goMapIndex "focus_up"]

/-- Hexadecimal digit value of a character, `none` on a non-hex character. -/
def hexVal (c : Char) : Option Nat :=
  if c.toNat ≥ 48 ∧ c.toNat ≤ 57 then some (c.toNat - 48)
  else if c.toNat ≥ 97 ∧ c.toNat ≤ 102 then some (c.toNat - 87)
  else if c.toNat ≥ 65 ∧ c.toNat ≤ 70 then some (c.toNat - 55)
  else none

/-- Big-endian hexadecimal parse of a character list, accumulating. -/
def hexNat : List Char → Nat → Option Nat
  | [], acc => some acc
  | c :: rest, acc =>
    match hexVal c with
    | none => none
    | some v => hexNat rest (acc * 16 + v)

/-- Split a character list on the dash character. -/
def splitOnDash : List Char → List (List Char)
  | [] => [[]]
  | c :: rest =>
    let r := splitOnDash rest
    if c = '-' then [] :: r
    else
      match r with
      | h :: t => (c :: h) :: t
      | [] => [[c]]

/-- Models the external library routine `bluetooth.ParseUUID` on the
canonical 36-character `8-4-4-4-12` hexadecimal form: the parsed 128-bit
value as a `Nat`, or `none` (the library's error) on any malformed input. -/
def ParseUUID (s : String) : Option Nat :=
  match splitOnDash s.data with
  | [a, b, c, d, e] =>
    if a.length = 8 ∧ b.length = 4 ∧ c.length = 4 ∧ d.length = 4 ∧ e.length = 12 then
      match hexNat a 0, hexNat b 0, hexNat c 0, hexNat d 0, hexNat e 0 with
      | some va, some vb, some vc, some vd, some ve =>
        some ((((va * 2 ^ 16 + vb) * 2 ^ 16 + vc) * 2 ^ 16 + vd) * 2 ^ 48 + ve)
      | _, _, _, _, _ => none
    else none
  | _ => none

/-- Embeds `ServiceUUID` from commands.go: parses `SonyServiceUUID`,
discarding the error (`uuid, _ := bluetooth.ParseUUID(...)`); on a parse
failure the discarded-error path would return the zero-valued UUID. -/
def ServiceUUID (_u : Unit) : Nat :=
  (ParseUUID SonyServiceUUID).getD 0

/-- Embeds `CharacteristicUUID` from commands.go, same discarded-error
shape as `ServiceUUID`. -/
def CharacteristicUUID (_u : Unit) : Nat :=
  (ParseUUID CommandCharUUID).getD 0

/-- UTF-8 encoding of one character as its byte values; Go strings are
byte slices holding the UTF-8 encoding of their text. -/
def utf8Bytes (c : Char) : List Nat :=
  let n := c.toNat
  if n < 0x80 then [n]
  else if n < 0x800 then [0xc0 + n / 64, 0x80 + n % 64]
  else if n < 0x10000 then
    [0xe0 + n / 4096, 0x80 + n / 64 % 64, 0x80 + n % 64]
  else
    [0xf0 + n / 262144, 0x80 + n / 4096 % 64, 0x80 + n / 64 % 64, 0x80 + n % 64]

/-- The byte content of a Go string: UTF-8 bytes of its characters. -/
def strBytes (s : String) : List Nat :=
  s.data.flatMap utf8Bytes

/-- Go byte-level substring test, mirroring the inner loop of
`containsSonyIdentifier` in client.go: guarded by
`len(name) >= len(identifier)`, then positions `0 ..= len name - len id`,
comparing the byte slice `name[i : i+len id]` with the identifier. -/
def containsSubstr (name id : List Nat) : Bool :=
  if name.length ≥ id.length then
    (List.range (name.length - id.length + 1)).any fun i =>
      (name.drop i).take id.length == id
  else false

/-- Embeds the `sonyIdentifiers` slice literal inside
`containsSonyIdentifier` in client.go. -/
def sonyIdentifiers : List String :=
  ["Sony", "ILCE", "DSC", "FX", "α", "Alpha"]

/-- Embeds `containsSonyIdentifier` from client.go: true when any of the
fixed identifiers occurs as a byte substring of the advertised name. -/
def containsSonyIdentifier (name : String) : Bool :=
  sonyIdentifiers.any fun id => containsSubstr (strBytes name) (strBytes id)

/-- Embeds the `ConnectionState` enumeration from client.go. -/
inductive ConnectionState where
  | Disconnected
  | Scanning
  | Connecting
  | Connected
  | Error
deriving DecidableEq, Repr

open ConnectionState

/-- Embeds `ConnectionState.String` from client.go. -/
def ConnectionState.toGoString : ConnectionState → String
  | Disconnected => "Disconnected"
  | Scanning => "Scanning"
  | Connecting => "Connecting"
  | Connected => "Connected"
  | Error => "Error"

/-- Embeds the `Client` struct from client.go.  The `adapter` and the
`stopScan` channel are runtime plumbing with no protocol state.  The
`device`, `service` and `char` fields are Go zero values until assigned;
they are `Option Nat` handles here (`none` = never assigned). -/
structure Client where
  device : Option Nat
  service : Option Nat
  char : Option Nat
  state : ConnectionState
  deviceName : String
  lastError : Option GoError
deriving DecidableEq, Repr

/-- The client `NewClient` builds: `Disconnected`, nothing assigned. -/
def newClient : Client :=
  ⟨none, none, none, Disconnected, "", none⟩

/-- The `errors.New("not connected to device")` value returned by
`SendCommand` outside the `Connected` state. -/
def notConnectedError : GoError :=
  GoError.simple "not connected to device"

/-- Embeds `Client.SendCommand` from client.go.  `writeErr` is the outcome
of the BLE stack's `WriteWithoutResponse` call.  Result: the updated
client, the returned `error`, and the list of byte payloads passed to
`WriteWithoutResponse` during the call (empty or the single `cmd.Code`). -/
def Client.sendCommand (c : Client) (cmd : SonyCommand) (writeErr : Option GoError) :
    Client × Option GoError × List (List Nat) :=
  if c.state ≠ Connected then
    (c, some notConnectedError, [])
  else
    match writeErr with
    | some e =>
      let err := GoError.wrapped ("failed to send command " ++ cmd.Name) e
      ({ c with lastError := some err }, some err, [cmd.Code])
    | none => (c, none, [cmd.Code])

/-- Embeds `Client.SendCommandSequence` from client.go.  `ws i` is the BLE
write outcome for the i-th write attempt of the sequence; `delay` is the
inter-command `time.Sleep` duration, which touches no client state. -/
def Client.sendCommandSequence (c : Client) (cmds : List SonyCommand) (delay : Nat)
    (ws : Nat → Option GoError) : Client × Option GoError × List (List Nat) :=
  match cmds with
  | [] => (c, none, [])
  | cmd :: rest =>
    let r := c.sendCommand cmd (ws 0)
    match r.2.1 with
    | some e => (r.1, some e, r.2.2)
    | none =>
      let r2 := r.1.sendCommandSequence rest delay (fun i => ws (i + 1))
      (r2.1, r2.2.1, r.2.2 ++ r2.2.2)

/-- Embeds `Client.TakePhoto` from client.go: the photo sequence with a
50 ms delay. -/
def Client.takePhoto (c : Client) (ws : Nat → Option GoError) :
    Client × Option GoError × List (List Nat) :=
  c.sendCommandSequence (TakePhotoSequence ()) 50 ws

/-- Embeds the synchronous body of `Client.ScanForDevices` from client.go:
it sets `Scanning`, clears `lastError`, spawns the scan goroutine and
returns `nil` immediately. -/
def Client.scanForDevices (c : Client) : Client × Option GoError :=
  ({ c with state := Scanning, lastError := none }, none)

/-- Embeds the error branch of the scan goroutine in
`Client.ScanForDevices`: when `adapter.Scan` returns an error the
goroutine records it and moves the state to `Error`. -/
def Client.scanLoopFail (c : Client) (e : GoError) : Client :=
  { c with lastError := some e, state := Error }

/-- Embeds `Client.StopScan` from client.go: the channel send and
`adapter.StopScan` touch no modelled state; the state drops to
`Disconnected` only from `Scanning`. -/
def Client.stopScan (c : Client) : Client :=
  if c.state = Scanning then { c with state := Disconnected } else c

/-- BLE stack outcomes consumed by one `Client.Connect` call:
the link-layer connect result, the service-discovery result
(`svcFound = none` models an empty services slice, `some h` the handle
`services[0]`), and likewise for the characteristic discovery. -/
structure ConnectEnv where
  connectErr : Option GoError
  deviceHandle : Nat
  svcErr : Option GoError
  svcFound : Option Nat
  charErr : Option GoError
  charFound : Option Nat
deriving DecidableEq, Repr

/-- Embeds `Client.Connect` from client.go: set `Connecting`, clear
`lastError`, then the connect → discover-service → discover-characteristic
sequence, each failure recording `lastError` and ending in `Error`. -/
def Client.connect (c : Client) (addr : String) (env : ConnectEnv) :
    Client × Option GoError :=
  let c0 := { c with state := Connecting, lastError := none }
  match env.connectErr with
  | some e =>
    let err := GoError.wrapped "failed to connect" e
    ({ c0 with lastError := some err, state := Error }, some err)
  | none =>
    let c1 := { c0 with device := some env.deviceHandle }
    match env.svcErr with
    | some e =>
      let err := GoError.wrapped "failed to discover services" e
      ({ c1 with lastError := some err, state := Error }, some err)
    | none =>
      match env.svcFound with
      | none =>
        let err := GoError.simple "Sony camera service not found"
        ({ c1 with lastError := some err, state := Error }, some err)
      | some svc =>
        let c2 := { c1 with service := some svc }
        match env.charErr with
        | some e =>
          let err := GoError.wrapped "failed to discover characteristics" e
          ({ c2 with lastError := some err, state := Error }, some err)
        | none =>
          match env.charFound with
          | none =>
            let err := GoError.simple "command characteristic not found"
            ({ c2 with lastError := some err, state := Error }, some err)
          | some ch =>
            ({ c2 with char := some ch, state := Connected, deviceName := addr }, none)

/-- Embeds `Client.Disconnect` from client.go: from `Connected` the link
is released first (`linkErr` its outcome), a failure recording `lastError`
and ending in `Error`; every other path ends `Disconnected` with the
device name cleared. -/
def Client.disconnect (c : Client) (linkErr : Option GoError) :
    Client × Option GoError :=
  if c.state = Connected then
    match linkErr with
    | some e => ({ c with lastError := some e, state := Error }, some e)
    | none => ({ c with state := Disconnected, deviceName := "" }, none)
  else
    ({ c with state := Disconnected, deviceName := "" }, none)

/-- One invocation of a public `Client` operation, with the BLE stack
outcomes it consumes.  `scanFail` is the asynchronous error branch of the
scan goroutine started by `ScanForDevices`. -/
inductive ClientOp where
  | scan
  | scanFail (e : GoError)
  | stop
  | connect (addr : String) (env : ConnectEnv)
  | disconnect (linkErr : Option GoError)
  | send (cmd : SonyCommand) (writeErr : Option GoError)
deriving DecidableEq, Repr

/-- Dispatch of one public operation on the client: the updated client and
the `error` the operation returns to its caller (`scanFail` and `stop`
return nothing). -/
def Client.step (c : Client) (op : ClientOp) : Client × Option GoError :=
  match op with
  | .scan => c.scanForDevices
  | .scanFail e => (c.scanLoopFail e, none)
  | .stop => (c.stopScan, none)
  | .connect addr env => c.connect addr env
  | .disconnect linkErr => c.disconnect linkErr
  | .send cmd writeErr =>
    let r := c.sendCommand cmd writeErr
    (r.1, r.2.1)

/-- Follows the spec's words (state machine of §4.4/§4.5), for comparison
with the code: the enumerated transition edges, a transition staying in
place allowed. -/
def specTransition : ConnectionState → ConnectionState → Bool
  | Disconnected, Scanning => true
  | Scanning, Disconnected => true
  | Scanning, Error => true
  | Disconnected, Connecting => true
  | Connecting, Connected => true
  | Connecting, Error => true
  | Connected, Disconnected => true
  | Connected, Error => true
  | a, b => a == b

/-- Embeds `DeviceInfo` from client.go: advertised name, the platform
address object (an opaque handle here), its string form, and the RSSI. -/
structure DeviceInfo where
  Name : String
  Address : Nat
  AddressStr : String
  RSSI : Int
deriving DecidableEq, Repr

/-- The device-accumulation slice of the UI `Model` (part_001): the
`devices` list and the `logs` list; the remaining fields (mode, cursor,
channels, styling) never touch device accumulation. -/
structure UIModel where
  devices : List DeviceInfo
  logs : List String
deriving DecidableEq, Repr

/-- Embeds `Model.addLog` from part_001: appends `[ts] message` and keeps
at most the 10 newest lines.  `time.Now().Format` is the `ts` argument. -/
def UIModel.addLog (m : UIModel) (ts message : String) : UIModel :=
  let logs := m.logs ++ ["[" ++ ts ++ "] " ++ message]
  { m with logs := if logs.length > 10 then logs.drop 1 else logs }

/-- Embeds `Model.addDevice` from part_001: if a device with the same
address string is already present, return unchanged; otherwise append the
device and log the find. -/
def UIModel.addDevice (m : UIModel) (ts : String) (device : DeviceInfo) : UIModel :=
  if m.devices.any fun d => d.AddressStr == device.AddressStr then m
  else
    let m1 := { m with devices := m.devices ++ [device] }
    m1.addLog ts ("Found: " ++ device.Name ++ " (" ++ device.AddressStr ++ ")")

/-- The devices/logs state of `NewModel` (part_001): both empty (the
startup log line carries no device). -/
def initialUIModel : UIModel :=
  ⟨[], []⟩

/-- Folds a whole discovery session into the model: each entry is one
`deviceFoundMsg` handled by `addDevice` (with its log timestamp). -/
def UIModel.addAll (m : UIModel) : List (String × DeviceInfo) → UIModel
  | [] => m
  | e :: rest => (m.addDevice e.1 e.2).addAll rest

/-! Theorems. -/

/-- Claim C6: the command registry maps every listed key to exactly the
listed byte-code, and the service and characteristic UUID constants equal
the two fixed UUID strings. -/
theorem commands_registry_exact :
    Commands "focus_down" = some ⟨"Focus Down", [0x01, 0x07]⟩ ∧
    Commands "focus_up" = some ⟨"Focus Up", [0x01, 0x06]⟩ ∧
    Commands "autofocus_down" = some ⟨"AutoFocus Down", [0x01, 0x15]⟩ ∧
    Commands "autofocus_up" = some ⟨"AutoFocus Up", [0x01, 0x14]⟩ ∧
    Commands "shutter_half_down" = some ⟨"Shutter Half Down", [0x01, 0x07]⟩ ∧
    Commands "shutter_half_up" = some ⟨"Shutter Half Up", [0x01, 0x06]⟩ ∧
    Commands "shutter_full_down" = some ⟨"Shutter Full Down", [0x01, 0x09]⟩ ∧
    Commands "shutter_full_up" = some ⟨"Shutter Full Up", [0x01, 0x08]⟩ ∧
    Commands "record_toggle" = some ⟨"Toggle Record", [0x01, 0x0e]⟩ ∧
    Commands "record_down" = some ⟨"Record Down", [0x01, 0x0f]⟩ ∧
    Commands "zoom_in_down" = some ⟨"Zoom In Down", [0x02, 0x6d, 0x20]⟩ ∧
    Commands "zoom_in_up" = some ⟨"Zoom In Up", [0x02, 0x6c, 0x00]⟩ ∧
    Commands "zoom_out_down" = some ⟨"Zoom Out Down", [0x02, 0x6b, 0x20]⟩ ∧
    Commands "zoom_out_up" = some ⟨"Zoom Out Up", [0x02, 0x6a, 0x00]⟩ ∧
    Commands "c1_down" = some ⟨"C1 Down", [0x01, 0x21]⟩ ∧
    Commands "c1_up" = some ⟨"C1 Up", [0x01, 0x20]⟩ ∧
    SonyServiceUUID = "8000ff00-ff00-ffff-ffff-ffffffffffff" ∧
    CommandCharUUID = "0000ff01-0000-1000-8000-00805f9b34fb" := by
  decide

/-- Claim C7: `TakePhotoSequence` returns exactly 4 commands, the registry
entries for focus_down, shutter_full_down, shutter_full_up, focus_up in
that fixed order, and any two calls return equal sequences. -/
theorem takePhotoSequence_fixed :
    (TakePhotoSequence ()).length = 4 ∧
    (TakePhotoSequence ()).map some =
      [Commands "focus_down", Commands "shutter_full_down",
       Commands "shutter_full_up", Commands "focus_up"] ∧
    ∀ u v : Unit, TakePhotoSequence u = TakePhotoSequence v := by
  refine ⟨by decide, by decide, fun u v => rfl⟩

/-- Claim C10: parsing the two fixed UUID constants always succeeds, so
the discarded-error branch of `ServiceUUID`/`CharacteristicUUID` is
unreachable and both return the correctly parsed, nonzero UUID value. -/
theorem uuid_constants_parse :
    ParseUUID SonyServiceUUID = some (ServiceUUID ()) ∧
    ParseUUID CommandCharUUID = some (CharacteristicUUID ()) ∧
    ServiceUUID () = 0x8000ff00ff00ffffffffffffffffffff ∧
    CharacteristicUUID () = 0xff0100001000800000805f9b34fb ∧
    ServiceUUID () ≠ 0 ∧
    CharacteristicUUID () ≠ 0 := by
  decide

/-- Claim C3: on a client whose state is not `Connected`, `SendCommand`
returns the NotConnected error, performs no characteristic write, and
leaves the whole client (state, handles, lastError) unchanged. -/
theorem sendCommand_not_connected (c : Client) (cmd : SonyCommand)
    (w : Option GoError) (h : c.state ≠ Connected) :
    c.sendCommand cmd w = (c, some notConnectedError, []) := by
  simp [Client.sendCommand, h]

/-- Witness for `sendCommand_not_connected` on the freshly created
client. -/
theorem sendCommand_not_connected_witness :
    newClient.state ≠ Connected ∧
    newClient.sendCommand (goMapIndex "focus_down") none =
      (newClient, some notConnectedError, []) :=
  ⟨by decide, sendCommand_not_connected newClient (goMapIndex "focus_down") none (by decide)⟩

/-- A client as it stands right after a successful `Connect`. -/
def connectedClient : Client :=
  ⟨some 1, some 2, some 3, Connected, "AA:BB:CC:DD:EE:FF", none⟩

/-- Claim C1 counterexample: a characteristic write failure inside
`SendCommand` is returned to the caller, yet the state stays `Connected`
instead of transitioning to `Error`. -/
theorem sendCommand_write_failure_state_not_error :
    (connectedClient.sendCommand (goMapIndex "focus_down")
      (some (GoError.simple "write failed"))).2.1.isSome = true ∧
    (connectedClient.sendCommand (goMapIndex "focus_down")
      (some (GoError.simple "write failed"))).1.state = Connected ∧
    (connectedClient.sendCommand (goMapIndex "focus_down")
      (some (GoError.simple "write failed"))).1.state ≠ Error := by
  decide

/-- Claim C1 (amended): on a connected client a write failure inside
`SendCommand` records the wrapped error as `lastError` and returns it to
the caller, but the state remains `Connected` (the code performs no
transition to `Error` on write failure). -/
theorem sendCommand_write_failure_amended (c : Client) (cmd : SonyCommand)
    (e : GoError) (h : c.state = Connected) :
    (c.sendCommand cmd (some e)).2.1 =
      some (GoError.wrapped ("failed to send command " ++ cmd.Name) e) ∧
    (c.sendCommand cmd (some e)).1.lastError =
      some (GoError.wrapped ("failed to send command " ++ cmd.Name) e) ∧
    (c.sendCommand cmd (some e)).1.state = Connected := by
  simp [Client.sendCommand, h]

/-- Witness for `sendCommand_write_failure_amended` on a concrete
connected client. -/
theorem sendCommand_write_failure_amended_witness :
    (connectedClient.sendCommand (goMapIndex "focus_up")
      (some (GoError.simple "boom"))).2.1 =
      some (GoError.wrapped ("failed to send command " ++ (goMapIndex "focus_up").Name)
        (GoError.simple "boom")) ∧
    (connectedClient.sendCommand (goMapIndex "focus_up")
      (some (GoError.simple "boom"))).1.lastError =
      some (GoError.wrapped ("failed to send command " ++ (goMapIndex "focus_up").Name)
        (GoError.simple "boom")) ∧
    (connectedClient.sendCommand (goMapIndex "focus_up")
      (some (GoError.simple "boom"))).1.state = Connected :=
  sendCommand_write_failure_amended connectedClient (goMapIndex "focus_up")
    (GoError.simple "boom") rfl

/-- Claim C4 counterexample: `SendCommand` on a disconnected client
returns the NotConnected error, yet `LastError` stays `nil` — the
returned error is not recorded. -/
theorem sendCommand_not_connected_error_not_recorded :
    (newClient.step (ClientOp.send (goMapIndex "focus_down") none)).2 =
      some notConnectedError ∧
    (newClient.step (ClientOp.send (goMapIndex "focus_down") none)).1.lastError = none := by
  decide

/-- Claim C4 (amended): every public operation that returns an error
records it as `lastError`, with one exception: `SendCommand`'s
NotConnected precondition failure is returned but not recorded, leaving
`lastError` unchanged. -/
theorem step_error_recording (c : Client) (op : ClientOp) (e : GoError)
    (h : (c.step op).2 = some e) :
    (c.step op).1.lastError = some e ∨
    (∃ cmd w, op = ClientOp.send cmd w ∧ c.state ≠ Connected ∧
      (c.step op).1.lastError = c.lastError ∧ e = notConnectedError) := by
  cases op with
  | scan => simp [Client.step, Client.scanForDevices] at h
  | scanFail e2 => simp [Client.step] at h
  | stop => simp [Client.step] at h
  | connect addr env =>
    left
    obtain ⟨ce, dh, se, sf, che, chf⟩ := env
    cases ce <;> cases se <;> cases sf <;> cases che <;> cases chf <;>
      simp_all [Client.step, Client.connect]
  | disconnect le =>
    left
    by_cases hc : c.state = Connected <;> cases le <;>
      simp_all [Client.step, Client.disconnect]
  | send cmd w =>
    by_cases hc : c.state = Connected
    · left
      cases w <;> simp_all [Client.step, Client.sendCommand]
    · right
      refine ⟨cmd, w, rfl, hc, ?_, ?_⟩ <;>
        simp_all [Client.step, Client.sendCommand]

/-- Witness for `step_error_recording`: a failing link release on a
connected client is recorded as `lastError`. -/
theorem step_error_recording_witness :
    (connectedClient.step (ClientOp.disconnect (some (GoError.simple "link lost")))).1.lastError =
      some (GoError.simple "link lost") ∨
    (∃ cmd w, ClientOp.disconnect (some (GoError.simple "link lost")) = ClientOp.send cmd w ∧
      connectedClient.state ≠ Connected ∧
      (connectedClient.step (ClientOp.disconnect (some (GoError.simple "link lost")))).1.lastError =
        connectedClient.lastError ∧
      GoError.simple "link lost" = notConnectedError) :=
  step_error_recording connectedClient
    (ClientOp.disconnect (some (GoError.simple "link lost")))
    (GoError.simple "link lost") rfl

/-- Claim C2 counterexample: `ScanForDevices` invoked on a connected
client moves the state from `Connected` to `Scanning`, a transition
outside the spec's enumerated set. -/
theorem scan_from_connected_outside_spec :
    (connectedClient.step ClientOp.scan).1.state = Scanning ∧
    specTransition Connected Scanning = false := by
  decide

/-- Claim C2 (amended): the operations are unguarded — `ScanForDevices`
moves any state to `Scanning`, the scan goroutine's failure moves any
state to `Error`, `StopScan` moves `Scanning` to `Disconnected` and leaves
any other state, `Connect` ends in `Connected` or `Error` from any state,
`Disconnect` ends in `Disconnected` or `Error` from any state, and
`SendCommand` never changes the state; moreover every operation that
returns an error ends in `Error` or leaves the state unchanged. -/
theorem step_state_machine_amended (c : Client) (op : ClientOp) :
    (match op with
     | ClientOp.scan => (c.step op).1.state = Scanning
     | ClientOp.scanFail _ => (c.step op).1.state = Error
     | ClientOp.stop =>
       (c.step op).1.state = if c.state = Scanning then Disconnected else c.state
     | ClientOp.connect _ _ =>
       (c.step op).1.state = Connected ∨ (c.step op).1.state = Error
     | ClientOp.disconnect _ =>
       (c.step op).1.state = Disconnected ∨ (c.step op).1.state = Error
     | ClientOp.send _ _ => (c.step op).1.state = c.state) ∧
    ((c.step op).2 ≠ none → (c.step op).1.state = Error ∨ (c.step op).1.state = c.state) := by
  constructor
  · cases op with
    | scan => simp [Client.step, Client.scanForDevices]
    | scanFail e => simp [Client.step, Client.scanLoopFail]
    | stop =>
      simp only [Client.step, Client.stopScan]
      split <;> simp_all
    | connect addr env =>
      obtain ⟨ce, dh, se, sf, che, chf⟩ := env
      cases ce <;> cases se <;> cases sf <;> cases che <;> cases chf <;>
        simp_all [Client.step, Client.connect]
    | disconnect le =>
      by_cases hc : c.state = Connected <;> cases le <;>
        simp_all [Client.step, Client.disconnect]
    | send cmd w =>
      by_cases hc : c.state = Connected <;> cases w <;>
        simp_all [Client.step, Client.sendCommand]
  · intro he
    cases op with
    | scan => simp [Client.step, Client.scanForDevices] at he
    | scanFail e => simp [Client.step] at he
    | stop => simp [Client.step] at he
    | connect addr env =>
      left
      obtain ⟨ce, dh, se, sf, che, chf⟩ := env
      cases ce <;> cases se <;> cases sf <;> cases che <;> cases chf <;>
        simp_all [Client.step, Client.connect]
    | disconnect le =>
      by_cases hc : c.state = Connected <;> cases le <;>
        simp_all [Client.step, Client.disconnect]
    | send cmd w =>
      right
      by_cases hc : c.state = Connected <;> cases w <;>
        simp_all [Client.step, Client.sendCommand]

/-- Witness for `step_state_machine_amended`: a failing `SendCommand` on
the fresh client leaves the state unchanged or in `Error`. -/
theorem step_state_machine_amended_witness :
    (newClient.step (ClientOp.send (goMapIndex "c1_down") none)).1.state = Error ∨
    (newClient.step (ClientOp.send (goMapIndex "c1_down") none)).1.state = newClient.state :=
  (step_state_machine_amended newClient (ClientOp.send (goMapIndex "c1_down") none)).2
    (by decide)

/-- Claim C8: any name containing one of the listed substrings (as bytes,
case-sensitively) passes the filter; the empty name fails; a name
containing none of the filter's fixed substrings fails. -/
theorem identifier_filter_cases (name : String) :
    ((containsSubstr (strBytes name) (strBytes "ILCE") = true ∨
      containsSubstr (strBytes name) (strBytes "DSC") = true ∨
      containsSubstr (strBytes name) (strBytes "FX") = true ∨
      containsSubstr (strBytes name) (strBytes "Alpha") = true ∨
      containsSubstr (strBytes name) (strBytes "α") = true) →
      containsSonyIdentifier name = true) ∧
    containsSonyIdentifier "" = false ∧
    ((∀ id ∈ sonyIdentifiers, containsSubstr (strBytes name) (strBytes id) = false) →
      containsSonyIdentifier name = false) := by
  refine ⟨?_, by decide, ?_⟩
  · intro h
    simp only [containsSonyIdentifier, sonyIdentifiers, List.any_cons, List.any_nil,
      Bool.or_eq_true]
    rcases h with h | h | h | h | h <;> simp [h]
  · intro h
    have h1 := h "Sony" (by simp [sonyIdentifiers])
    have h2 := h "ILCE" (by simp [sonyIdentifiers])
    have h3 := h "DSC" (by simp [sonyIdentifiers])
    have h4 := h "FX" (by simp [sonyIdentifiers])
    have h5 := h "α" (by simp [sonyIdentifiers])
    have h6 := h "Alpha" (by simp [sonyIdentifiers])
    simp [containsSonyIdentifier, sonyIdentifiers, h1, h2, h3, h4, h5, h6]

/-- Witness for `identifier_filter_cases`: a camera name passes, the
empty name and a headphone name fail. -/
theorem identifier_filter_cases_witness :
    containsSonyIdentifier "ILCE-7M4" = true ∧
    containsSonyIdentifier "" = false ∧
    containsSonyIdentifier "WH-1000XM3" = false :=
  ⟨(identifier_filter_cases "ILCE-7M4").1 (Or.inl (by decide)),
   (identifier_filter_cases "").2.1,
   (identifier_filter_cases "WH-1000XM3").2.2 (by decide)⟩

/-- On a connected client a sequence whose writes all succeed sends every
command's byte-code in declared order and returns no error. -/
theorem sendSeq_all_ok (c : Client) (hc : c.state = Connected)
    (cmds : List SonyCommand) (delay : Nat) (ws : Nat → Option GoError)
    (hws : ∀ i < cmds.length, ws i = none) :
    c.sendCommandSequence cmds delay ws = (c, none, cmds.map SonyCommand.Code) := by
  induction cmds generalizing ws with
  | nil => simp [Client.sendCommandSequence]
  | cons cmd rest ih =>
    have h0 : ws 0 = none := hws 0 (Nat.succ_pos _)
    have hrec := ih (fun i => ws (i + 1))
      (fun i hi => hws (i + 1) (Nat.succ_lt_succ hi))
    simp [Client.sendCommandSequence, Client.sendCommand, hc, h0, hrec]

/-- On a connected client, if the writes before position `i` succeed and
the write at `i` fails, the sequence stops at `i`: exactly the byte-codes
of the first `i + 1` commands are written, in order, and the wrapped
failure of command `i` is recorded and returned. -/
theorem sendSeq_first_fail (c : Client) (hc : c.state = Connected)
    (cmds : List SonyCommand) (delay : Nat) (ws : Nat → Option GoError)
    (i : Nat) (hi : i < cmds.length) (hpre : ∀ j < i, ws j = none)
    (e : GoError) (he : ws i = some e) :
    c.sendCommandSequence cmds delay ws =
      ({ c with lastError := some (GoError.wrapped
           ("failed to send command " ++ (cmds.get ⟨i, hi⟩).Name) e) },
       some (GoError.wrapped
           ("failed to send command " ++ (cmds.get ⟨i, hi⟩).Name) e),
       (cmds.take (i + 1)).map SonyCommand.Code) := by
  induction cmds generalizing ws i with
  | nil => exact absurd hi (by simp)
  | cons cmd rest ih =>
    cases i with
    | zero =>
      simp [Client.sendCommandSequence, Client.sendCommand, hc, he]
    | succ i2 =>
      have h0 : ws 0 = none := hpre 0 (Nat.succ_pos _)
      have hrec := ih (fun j => ws (j + 1)) i2 (Nat.lt_of_succ_lt_succ hi)
        (fun j hj => hpre (j + 1) (Nat.succ_lt_succ hj)) he
      simp [Client.sendCommandSequence, Client.sendCommand, hc, h0, hrec]

/-- Claim C5: on a connected client `SendCommandSequence` writes the
commands' byte-codes strictly in declared order, one at a time; when all
writes succeed it sends every byte-code and returns no error, and on the
first failing command it stops, sends none of the remaining commands, and
returns that first (wrapped) error — the already-written codes stay
written. -/
theorem sendCommandSequence_in_order (c : Client) (cmds : List SonyCommand)
    (delay : Nat) (ws : Nat → Option GoError) (hc : c.state = Connected) :
    ((∀ i < cmds.length, ws i = none) →
      c.sendCommandSequence cmds delay ws = (c, none, cmds.map SonyCommand.Code)) ∧
    (∀ i, (hi : i < cmds.length) → (∀ j < i, ws j = none) → ∀ e, ws i = some e →
      c.sendCommandSequence cmds delay ws =
        ({ c with lastError := some (GoError.wrapped
             ("failed to send command " ++ (cmds.get ⟨i, hi⟩).Name) e) },
         some (GoError.wrapped
             ("failed to send command " ++ (cmds.get ⟨i, hi⟩).Name) e),
         (cmds.take (i + 1)).map SonyCommand.Code)) :=
  ⟨fun hws => sendSeq_all_ok c hc cmds delay ws hws,
   fun i hi hpre e he => sendSeq_first_fail c hc cmds delay ws i hi hpre e he⟩

/-- Witness for `sendCommandSequence_in_order`: a two-command sequence on
a concrete connected client, once with both writes succeeding and once
with the second write failing. -/
theorem sendCommandSequence_in_order_witness :
    connectedClient.sendCommandSequence
        [goMapIndex "focus_down", goMapIndex "shutter_full_down"] 0 (fun _ => none) =
      (connectedClient, none, [[0x01, 0x07], [0x01, 0x09]]) ∧
    connectedClient.sendCommandSequence
        [goMapIndex "focus_down", goMapIndex "shutter_full_down"] 0
        (fun i => if i = 0 then none else some (GoError.simple "boom")) =
      ({ connectedClient with lastError := some (GoError.wrapped
           "failed to send command Shutter Full Down" (GoError.simple "boom")) },
       some (GoError.wrapped
           "failed to send command Shutter Full Down" (GoError.simple "boom")),
       [[0x01, 0x07], [0x01, 0x09]]) := by
  constructor
  · have h := (sendCommandSequence_in_order connectedClient
      [goMapIndex "focus_down", goMapIndex "shutter_full_down"] 0
      (fun _ => none) rfl).1 (by decide)
    simpa using h
  · have h := (sendCommandSequence_in_order connectedClient
      [goMapIndex "focus_down", goMapIndex "shutter_full_down"] 0
      (fun i => if i = 0 then none else some (GoError.simple "boom")) rfl).2
      1 (by decide) (by decide) (GoError.simple "boom") (by decide)
    simpa using h

/-- `addDevice` with an already-present address string returns the model
unchanged (first record kept, no log line). -/
theorem addDevice_already (m : UIModel) (ts : String) (d : DeviceInfo)
    (h : d.AddressStr ∈ m.devices.map DeviceInfo.AddressStr) :
    m.addDevice ts d = m := by
  have hany : (m.devices.any fun d0 => d0.AddressStr == d.AddressStr) = true := by
    simp only [List.any_eq_true]
    obtain ⟨d0, hd0, he⟩ := List.mem_map.mp h
    exact ⟨d0, hd0, by simp [he]⟩
  simp [UIModel.addDevice, hany]

/-- `addDevice` with a fresh address string appends the record. -/
theorem addDevice_new (m : UIModel) (ts : String) (d : DeviceInfo)
    (h : d.AddressStr ∉ m.devices.map DeviceInfo.AddressStr) :
    (m.addDevice ts d).devices = m.devices ++ [d] := by
  have hany : (m.devices.any fun d0 => d0.AddressStr == d.AddressStr) = false := by
    simp only [List.any_eq_false]
    intro d0 hd0
    simp only [beq_iff_eq]
    intro he
    exact h (List.mem_map.mpr ⟨d0, hd0, he⟩)
  simp [UIModel.addDevice, hany, UIModel.addLog]

/-- `addDevice` preserves uniqueness of the address strings. -/
theorem addDevice_addrs_nodup (m : UIModel) (ts : String) (d : DeviceInfo)
    (h : (m.devices.map DeviceInfo.AddressStr).Nodup) :
    ((m.addDevice ts d).devices.map DeviceInfo.AddressStr).Nodup := by
  by_cases hm : d.AddressStr ∈ m.devices.map DeviceInfo.AddressStr
  · rw [addDevice_already m ts d hm]
    exact h
  · rw [addDevice_new m ts d hm]
    simp only [List.map_append, List.map_cons, List.map_nil, List.nodup_append]
    refine ⟨h, List.nodup_singleton _, ?_⟩
    intro a ha hb
    simp only [List.mem_singleton] at hb
    exact hm (hb ▸ ha)

/-- Folding a session's discoveries preserves address uniqueness. -/
theorem addAll_addrs_nodup (entries : List (String × DeviceInfo)) (m : UIModel)
    (h : (m.devices.map DeviceInfo.AddressStr).Nodup) :
    ((m.addAll entries).devices.map DeviceInfo.AddressStr).Nodup := by
  induction entries generalizing m with
  | nil => exact h
  | cons e rest ih => exact ih _ (addDevice_addrs_nodup m e.1 e.2 h)

/-- Every address in the folded model comes from the start model or from
one of the session's discovered records. -/
theorem addAll_addrs_subset (entries : List (String × DeviceInfo)) (m : UIModel) :
    ∀ a ∈ (m.addAll entries).devices.map DeviceInfo.AddressStr,
      a ∈ m.devices.map DeviceInfo.AddressStr ∨
      a ∈ entries.map fun p => p.2.AddressStr := by
  induction entries generalizing m with
  | nil =>
    intro a ha
    exact Or.inl ha
  | cons e rest ih =>
    intro a ha
    rcases ih (m.addDevice e.1 e.2) a ha with hi | hi
    · by_cases hm : e.2.AddressStr ∈ m.devices.map DeviceInfo.AddressStr
      · rw [addDevice_already m e.1 e.2 hm] at hi
        exact Or.inl hi
      · rw [addDevice_new m e.1 e.2 hm] at hi
        simp only [List.map_append, List.map_cons, List.map_nil, List.mem_append,
          List.mem_singleton] at hi
        rcases hi with hi | hi
        · exact Or.inl hi
        · exact Or.inr (by simp [hi])
    · exact Or.inr (by simp [List.mem_cons]; exact Or.inr (by simpa using hi))

/-- Claim C9: adding a record whose address string is already present
leaves the device list unchanged, and over any discovery session starting
from the fresh model the accumulated list is unique by address string and
no longer than the number of distinct address strings seen. -/
theorem addDevice_dedup_invariant (m : UIModel) (ts : String) (d : DeviceInfo)
    (entries : List (String × DeviceInfo))
    (h : ∃ d0 ∈ m.devices, d0.AddressStr = d.AddressStr) :
    (m.addDevice ts d).devices = m.devices ∧
    ((initialUIModel.addAll entries).devices.map DeviceInfo.AddressStr).Nodup ∧
    (initialUIModel.addAll entries).devices.length ≤
      (entries.map fun p => p.2.AddressStr).dedup.length := by
  have hstart : ((initialUIModel.devices).map DeviceInfo.AddressStr).Nodup := by
    simp [initialUIModel]
  have hnd := addAll_addrs_nodup entries initialUIModel hstart
  refine ⟨?_, hnd, ?_⟩
  · obtain ⟨d0, hd0, he⟩ := h
    rw [addDevice_already m ts d (List.mem_map.mpr ⟨d0, hd0, he⟩)]
  · have hsub := addAll_addrs_subset entries initialUIModel
    have hfin : ((initialUIModel.addAll entries).devices.map DeviceInfo.AddressStr).toFinset ⊆
        (entries.map fun p => p.2.AddressStr).toFinset := by
      intro a ha
      rw [List.mem_toFinset] at ha
      rw [List.mem_toFinset]
      rcases hsub a ha with hl | hl
      · simp [initialUIModel] at hl
      · exact hl
    calc (initialUIModel.addAll entries).devices.length
        = ((initialUIModel.addAll entries).devices.map DeviceInfo.AddressStr).toFinset.card := by
          rw [List.toFinset_card_of_nodup hnd, List.length_map]
      _ ≤ ((entries.map fun p => p.2.AddressStr).toFinset).card :=
          Finset.card_le_card hfin
      _ = (entries.map fun p => p.2.AddressStr).dedup.length :=
          List.card_toFinset _

/-- A discovered camera record and a later sighting of the same camera
with a different signal strength. -/
def demoDevice1 : DeviceInfo := ⟨"ILCE-7M4", 1, "AA:BB:CC:DD:EE:FF", -45⟩

/-- The later sighting: same address string, weaker signal. -/
def demoDevice2 : DeviceInfo := ⟨"ILCE-7M4", 1, "AA:BB:CC:DD:EE:FF", -60⟩

/-- A UI model that already holds the first sighting. -/
def demoModel : UIModel := ⟨[demoDevice1], []⟩

/-- Witness for `addDevice_dedup_invariant` at a concrete duplicate
sighting. -/
theorem addDevice_dedup_invariant_witness :
    (demoModel.addDevice "12:00:01" demoDevice2).devices = demoModel.devices ∧
    ((initialUIModel.addAll
      [("12:00:00", demoDevice1), ("12:00:01", demoDevice2)]).devices.map
        DeviceInfo.AddressStr).Nodup ∧
    (initialUIModel.addAll
      [("12:00:00", demoDevice1), ("12:00:01", demoDevice2)]).devices.length ≤
      ([("12:00:00", demoDevice1), ("12:00:01", demoDevice2)].map
        fun p => p.2.AddressStr).dedup.length :=
  addDevice_dedup_invariant demoModel "12:00:01" demoDevice2
    [("12:00:00", demoDevice1), ("12:00:01", demoDevice2)] (by decide)

end SonyRemoteBle
